import Mathlib

/-!
Verification of the docker-classification-model backend.

This file shallowly embeds the request-handling path of `src/backend/app.py`
and the database layer of `src/backend/database.py`:

* the inference engine `predict` (softmax probabilities are taken as an input
  vector of rationals; `np.argsort` is modelled as a stable ascending sort of
  the index range, i.e. the lexicographic (value, index) order, which is what
  numpy computes for the short arrays produced here),
* the `top_k` clamping performed by `predict_endpoint`,
* the label-store fallback `load_labels`,
* the `Database` operations (`connect`, `save_prediction`, `get_history`)
  over an explicit database state (committed table, connection flag, next
  surrogate id, insert-time clock), with the failure modes of the environment
  (connection refusal, insert error, query error) passed in explicitly,
* the `/predict` and GET `/history` HTTP handlers.

Purely observational aspects (logging, Prometheus metrics, wall-clock
processing time, request ids) are not modelled; no claim depends on them.
-/

namespace ImageClassifier

/-- One entry of the predictions list built in `predict` (app.py:294-298). -/
structure Pred where
  class_id : Nat
  label : String
  confidence : ℚ
  deriving DecidableEq, Repr

/-- The model_info block of a prediction result (app.py:303-307). -/
structure ModelInfo where
  device : String
  input_shape : String
  num_classes : Option Nat
  deriving DecidableEq, Repr

/-- Return value of `predict` (app.py:300-308 and 312). -/
structure PredictionResult where
  success : Bool
  predictions : List Pred
  model_info : ModelInfo
  error : Option String
  deriving DecidableEq, Repr

/-- The process-wide globals of app.py that the request path reads:
`device`, `INPUT_SIZE`, `class_labels`, `num_classes`. -/
structure Config where
  device : String
  input_size : Nat × Nat
  class_labels : Option (List String)
  num_classes : Option Nat
  deriving DecidableEq, Repr

/-- The comparison realised by `np.argsort(probs)` on the index range:
ascending by probability, ties kept in index order (the numpy sort is an
insertion sort for the short arrays arising here, hence stable). -/
def idxLe (probs : List ℚ) (i j : Nat) : Prop :=
  probs.getD i 0 < probs.getD j 0 ∨ (probs.getD i 0 = probs.getD j 0 ∧ i ≤ j)

instance (probs : List ℚ) : DecidableRel (idxLe probs) := fun i j =>
  decidable_of_iff
    (probs.getD i 0 < probs.getD j 0 ∨ (probs.getD i 0 = probs.getD j 0 ∧ i ≤ j)) Iff.rfl

/-- Model of `np.argsort(probs)` (app.py:288): the indices `0..len(probs)-1`
sorted ascending by probability, ties by index. -/
def argsortStable (probs : List ℚ) : List Nat :=
  List.insertionSort (idxLe probs) (List.range probs.length)

/-- Model of the Python slice `xs[-k:]` for a natural `k`: the last `k`
elements, except that `xs[-0:]` is the whole list. -/
def pySliceLast (k : Nat) (xs : List Nat) : List Nat :=
  if k = 0 then xs else xs.drop (xs.length - k)

/-- Label lookup (app.py:293): `class_labels[idx]` when `class_labels` is
truthy and the index is in range, otherwise the synthetic name. -/
def labelFor (class_labels : Option (List String)) (idx : Nat) : String :=
  match class_labels with
  | some ls => if ls ≠ [] ∧ idx < ls.length then ls.getD idx "" else "Class " ++ toString idx
  | none => "Class " ++ toString idx

/-- The inference engine `predict(image_tensor, top_k)` (app.py:263-312),
starting from the softmax probability vector `probs` produced at app.py:286.
`top_indices = np.argsort(probs)[-top_k:][::-1]`, each index is paired with
its label and raw probability. -/
def predict (cfg : Config) (probs : List ℚ) (top_k : Nat) : PredictionResult :=
  let top_indices := (pySliceLast top_k (argsortStable probs)).reverse
  let results := top_indices.map (fun idx =>
    { class_id := idx
      label := labelFor cfg.class_labels idx
      confidence := probs.getD idx 0 : Pred })
  { success := true
    predictions := results
    model_info :=
      { device := cfg.device
        input_shape := "(1,3," ++ toString cfg.input_size.1 ++ ","
          ++ toString cfg.input_size.2 ++ ")"
        num_classes := cfg.num_classes }
    error := none }

/-- The `top_k` clamping of `predict_endpoint` (app.py:407-416):
`max_k` is `num_classes` when set, else `len(class_labels)` when set,
else 1000; then `top_k = min(max(1, top_k), max_k)`. -/
def clampTopK (cfg : Config) (top_k : Int) : Nat :=
  let max_k : Nat :=
    match cfg.num_classes with
    | some n => n
    | none =>
      match cfg.class_labels with
      | some ls => ls.length
      | none => 1000
  (min (max 1 top_k) (max_k : Int)).toNat

/-- The id/timestamp pair returned by a successful insert
(database.py:71-74, RETURNING id, timestamp). -/
structure SavedMeta where
  id : Nat
  timestamp : Nat
  deriving DecidableEq, Repr

/-- A row of the predictions table (database.py:231-240): surrogate id,
insert-time timestamp, image name, top label, top confidence, and the
full ranked list stored in the JSONB column. Timestamps are abstracted
to naturals. The schema has no image-size column. -/
structure HistoryRow where
  id : Nat
  timestamp : Nat
  image_name : String
  prediction : String
  confidence : ℚ
  top_5_predictions : List Pred
  deriving DecidableEq, Repr

/-- State of the database as seen through the `Database` wrapper:
whether a live connection is held, the committed table contents, the next
surrogate id the store will assign, and the timestamp the store will stamp
on the next insert. -/
structure DBState where
  conn : Bool
  table : List HistoryRow
  nextId : Nat
  clock : Nat
  deriving DecidableEq, Repr

/-- Failure modes of the underlying store for the call at hand: whether a
connection attempt succeeds, whether the INSERT raises, whether the SELECT
raises. -/
structure DBEnv where
  connectOk : Bool
  insertError : Bool
  queryError : Bool
  deriving DecidableEq, Repr

/-- Database.connect (database.py:20-30): on success holds a connection and
returns true; on failure the exception is caught, the state is unchanged,
and false is returned. -/
def Database.connect (env : DBEnv) (st : DBState) : DBState × Bool :=
  if env.connectOk then ({ st with conn := true }, true) else (st, false)

/-- The lazy-connection preamble shared by the Database methods
(for instance database.py:40-44): reuse a live connection, else try to
connect once. -/
def Database.ensureConn (env : DBEnv) (st : DBState) : DBState × Bool :=
  if st.conn then (st, true) else Database.connect env st

/-- Database.save_prediction (database.py:38-95). Connects lazily and gives
up (returns none) if that fails; on an insert error rolls the in-flight
transaction back, leaving the committed table unchanged, and returns none;
on success appends the row, commits, and returns its id and timestamp.
The INSERT names only image_name, prediction, confidence and
top_5_predictions: `image_size` is accepted but never used. -/
def Database.save_prediction (env : DBEnv) (st : DBState)
    (image_name prediction : String) (confidence : ℚ) (top_5 : List Pred)
    (image_size : Option Nat) : DBState × Option SavedMeta :=
  let st1 := (Database.ensureConn env st).1
  if !(Database.ensureConn env st).2 then (st1, none)
  else if env.insertError then (st1, none)
  else
    let row : HistoryRow :=
      { id := st1.nextId
        timestamp := st1.clock
        image_name := image_name
        prediction := prediction
        confidence := confidence
        top_5_predictions := top_5 }
    ({ st1 with table := st1.table ++ [row], nextId := st1.nextId + 1 },
     some { id := row.id, timestamp := row.timestamp })

/-- The ORDER BY timestamp DESC of database.py:118, realised as a sort that
is descending in the timestamp (tie order among equal timestamps is not
observable through any claim). -/
def timestampDesc (a b : HistoryRow) : Prop :=
  b.timestamp ≤ a.timestamp

instance : DecidableRel timestampDesc := fun a b =>
  decidable_of_iff (b.timestamp ≤ a.timestamp) Iff.rfl

/-- The full ordering produced by the SELECT of Database.get_history. -/
def orderByTimestampDesc (rows : List HistoryRow) : List HistoryRow :=
  List.insertionSort timestampDesc rows

/-- Database.get_history (database.py:97-155). Connects lazily, returning
the empty list if that fails; any error during the query is caught and the
empty list is returned; otherwise the table is returned ordered by
timestamp descending with OFFSET skipped first and at most LIMIT rows. -/
def Database.get_history (env : DBEnv) (st : DBState) (limit offset : Nat) :
    DBState × List HistoryRow :=
  let st1 := (Database.ensureConn env st).1
  if !(Database.ensureConn env st).2 then (st1, [])
  else if env.queryError then (st1, [])
  else (st1, ((orderByTimestampDesc st1.table).drop offset).take limit)

/-- Response of the GET /history route: HTTP status plus the JSON body. -/
structure HistoryResponse where
  status : Nat
  body : List HistoryRow
  deriving DecidableEq, Repr

/-- The GET /history handler (app.py:490-504). It lazily connects and calls
db.get_history; both catch their own errors internally (connect returns
false, get_history returns the empty list), so nothing in the try block
raises on a store error and the except branch returning 500 is not reached
by store errors. -/
def get_history_route (env : DBEnv) (st : DBState) (limit offset : Nat) :
    DBState × HistoryResponse :=
  let st1 := (Database.ensureConn env st).1
  ((Database.get_history env st1 limit offset).1,
   { status := 200, body := (Database.get_history env st1 limit offset).2 })

/-- MAX_IMAGE_SIZE (app.py:87): 10 MiB. -/
def MAX_IMAGE_SIZE : Nat := 10 * 1024 * 1024

/-- Response of the POST /predict route: HTTP status plus the JSON fields
the claims observe. -/
structure PredictResponse where
  status : Nat
  success : Bool
  predictions : List Pred
  error : Option String
  history_record : Option SavedMeta
  deriving DecidableEq, Repr

/-- An error response of the /predict handler. -/
def errResponse (status : Nat) (msg : String) : PredictResponse :=
  { status := status
    success := false
    predictions := []
    error := some msg
    history_record := none }

/-- The POST /predict handler (app.py:364-488). Guards: model loaded, an
image part present, non-empty filename, size at most MAX_IMAGE_SIZE. Then
`top_k` is clamped, inference runs, a lazy connect is attempted, and when
the result is successful with a non-empty predictions list the top entry is
persisted; the whole persistence step sits in a try/except, so its failure
only means no history_record is attached. The closing log line indexes
`result.predictions[0]`, so an empty predictions list raises there and the
outer handler answers 500. -/
def predict_endpoint (cfg : Config) (env : DBEnv) (st : DBState)
    (model_loaded has_image : Bool) (filename : String) (file_size : Nat)
    (form_top_k : Int) (probs : List ℚ) : DBState × PredictResponse :=
  if !model_loaded then (st, errResponse 500 "Model not loaded")
  else if !has_image then (st, errResponse 400 "No image file provided.")
  else if filename = "" then (st, errResponse 400 "Empty filename")
  else if MAX_IMAGE_SIZE < file_size then
    (st, errResponse 400 "File too large. Maximum size is 10.0MB")
  else
    let result := predict cfg probs (clampTopK cfg form_top_k)
    let st1 := (Database.ensureConn env st).1
    let step :=
      if result.success && !result.predictions.isEmpty then
        match result.predictions with
        | [] => (st1, (none : Option SavedMeta))
        | top :: _ =>
          Database.save_prediction env st1 filename top.label top.confidence
            result.predictions (some file_size)
      else (st1, none)
    match result.predictions with
    | [] => (step.1, errResponse 500 "list index out of range")
    | _ :: _ =>
      (step.1, { status := 200
                 success := result.success
                 predictions := result.predictions
                 error := result.error
                 history_record := step.2 })

/-- The label store load_labels (app.py:214-232), as a function of the
previously known class count (None before model loading has inferred one)
and of what happens when the file is read: parsed successfully, absent, or
unreadable/malformed (any raised exception). -/
inductive LabelsSource where
  | fileMissing : LabelsSource
  | fileUnreadable : LabelsSource
  | fileParsed : List String → LabelsSource
  deriving DecidableEq, Repr

/-- load_labels (app.py:214-232): a parsed file fixes both the labels and
`num_classes` to its length; a missing or unreadable file falls back to
the prior `num_classes` (default 1000) synthetic placeholder labels.
Returns the pair (class_labels, num_classes). -/
def load_labels (prior : Option Nat) (src : LabelsSource) : List String × Nat :=
  match src with
  | LabelsSource.fileParsed ls => (ls, ls.length)
  | LabelsSource.fileMissing =>
    let n := prior.getD 1000
    ((List.range n).map (fun i => "Class " ++ toString i), n)
  | LabelsSource.fileUnreadable =>
    let n := prior.getD 1000
    ((List.range n).map (fun i => "Class " ++ toString i), n)

/-! ### Facts about the inference engine -/

instance (probs : List ℚ) : IsTotal Nat (idxLe probs) where
  total i j := by
    rcases lt_trichotomy (probs.getD i 0) (probs.getD j 0) with h | h | h
    · exact Or.inl (Or.inl h)
    · rcases Nat.le_total i j with hij | hij
      · exact Or.inl (Or.inr ⟨h, hij⟩)
      · exact Or.inr (Or.inr ⟨h.symm, hij⟩)
    · exact Or.inr (Or.inl h)

instance (probs : List ℚ) : IsTrans Nat (idxLe probs) where
  trans i j k hij hjk := by
    rcases hij with h1 | h1 <;> rcases hjk with h2 | h2
    · exact Or.inl (h1.trans h2)
    · exact Or.inl (lt_of_lt_of_le h1 h2.1.le)
    · exact Or.inl (lt_of_le_of_lt h1.1.le h2)
    · exact Or.inr ⟨h1.1.trans h2.1, h1.2.trans h2.2⟩

theorem argsortStable_perm (probs : List ℚ) :
    List.Perm (argsortStable probs) (List.range probs.length) :=
  List.perm_insertionSort _ _

theorem argsortStable_length (probs : List ℚ) :
    (argsortStable probs).length = probs.length :=
  (argsortStable_perm probs).length_eq.trans (List.length_range _)

theorem mem_argsortStable_lt (probs : List ℚ) {i : Nat}
    (h : i ∈ argsortStable probs) : i < probs.length :=
  List.mem_range.mp ((argsortStable_perm probs).mem_iff.mp h)

theorem argsortStable_nodup (probs : List ℚ) : (argsortStable probs).Nodup :=
  (argsortStable_perm probs).nodup_iff.mpr (List.nodup_range _)

theorem argsortStable_sorted (probs : List ℚ) :
    List.Sorted (idxLe probs) (argsortStable probs) :=
  List.sorted_insertionSort _ _

theorem pySliceLast_sublist (k : Nat) (xs : List Nat) :
    List.Sublist (pySliceLast k xs) xs := by
  unfold pySliceLast
  split
  · exact List.Sublist.refl xs
  · exact List.drop_sublist _ xs

theorem pySliceLast_length (k : Nat) (xs : List Nat) :
    (pySliceLast k xs).length = if k = 0 then xs.length else min k xs.length := by
  unfold pySliceLast
  split
  · rfl
  · rw [List.length_drop]
    omega

theorem predict_predictions (cfg : Config) (probs : List ℚ) (top_k : Nat) :
    (predict cfg probs top_k).predictions =
      ((pySliceLast top_k (argsortStable probs)).reverse).map (fun idx =>
        { class_id := idx
          label := labelFor cfg.class_labels idx
          confidence := probs.getD idx 0 : Pred }) := rfl

theorem predict_success_eq (cfg : Config) (probs : List ℚ) (top_k : Nat) :
    (predict cfg probs top_k).success = true := rfl

theorem predict_error_eq (cfg : Config) (probs : List ℚ) (top_k : Nat) :
    (predict cfg probs top_k).error = none := rfl

theorem predict_length (cfg : Config) (probs : List ℚ) (top_k : Nat) :
    (predict cfg probs top_k).predictions.length =
      if top_k = 0 then probs.length else min top_k probs.length := by
  rw [predict_predictions, List.length_map, List.length_reverse,
    pySliceLast_length, argsortStable_length]

theorem predict_predictions_ne_nil (cfg : Config) {probs : List ℚ}
    (h : probs ≠ []) (top_k : Nat) :
    (predict cfg probs top_k).predictions ≠ [] := by
  have hlen := predict_length cfg probs top_k
  have hpos : 0 < probs.length := List.length_pos.mpr h
  intro hnil
  rw [hnil] at hlen
  simp only [List.length_nil] at hlen
  split at hlen <;> omega

theorem predict_mem (cfg : Config) (probs : List ℚ) (top_k : Nat) {p : Pred}
    (hp : p ∈ (predict cfg probs top_k).predictions) :
    p.class_id < probs.length ∧ p.confidence = probs.getD p.class_id 0 := by
  rw [predict_predictions] at hp
  rcases List.mem_map.mp hp with ⟨idx, hidx, rfl⟩
  have hmem : idx ∈ argsortStable probs :=
    (pySliceLast_sublist top_k (argsortStable probs)).subset (List.mem_reverse.mp hidx)
  exact ⟨mem_argsortStable_lt probs hmem, rfl⟩

theorem predict_pairwise (cfg : Config) (probs : List ℚ) (top_k : Nat) :
    (predict cfg probs top_k).predictions.Pairwise (fun a b =>
      b.confidence ≤ a.confidence ∧
      (a.confidence = b.confidence → b.class_id < a.class_id)) := by
  rw [predict_predictions]
  have hsorted : (argsortStable probs).Pairwise (fun i j => idxLe probs i j ∧ i ≠ j) :=
    (argsortStable_sorted probs).and (argsortStable_nodup probs)
  have hslice := hsorted.sublist (pySliceLast_sublist top_k (argsortStable probs))
  have hrev : (pySliceLast top_k (argsortStable probs)).reverse.Pairwise
      (fun i j => idxLe probs j i ∧ j ≠ i) := List.pairwise_reverse.mpr hslice
  refine hrev.map _ ?_
  intro i j hij
  rcases hij with ⟨hle, hne⟩
  rcases hle with hlt | ⟨heq, hji⟩
  · exact ⟨le_of_lt hlt, fun hconf => absurd hconf.symm (ne_of_lt hlt)⟩
  · exact ⟨le_of_eq heq, fun _ => lt_of_le_of_ne hji hne⟩

theorem clampTopK_some {cfg : Config} {n : Nat}
    (h : cfg.num_classes = some n) (t : Int) :
    clampTopK cfg t = (min (max 1 t) (n : Int)).toNat := by
  unfold clampTopK
  rw [h]

/-! ### Claims about top-k selection and clamping -/

/-- Claim C1: for every successful prediction with requested top_k = k (k at least
1) on a softmax probability vector whose length is num_classes, the returned
predictions list has exactly min(k, num_classes) entries, every confidence
lies in the interval from 0 to 1, and the entries are sorted in descending
order of confidence. -/
theorem predict_topk_shape (cfg : Config) (probs : List ℚ) (k : Nat)
    (hcls : cfg.num_classes = some probs.length)
    (hk : 1 ≤ k)
    (hp : ∀ p ∈ probs, 0 ≤ p ∧ p ≤ 1) :
    (predict cfg probs (clampTopK cfg (k : Int))).predictions.length
        = min k probs.length ∧
    (∀ p ∈ (predict cfg probs (clampTopK cfg (k : Int))).predictions,
      0 ≤ p.confidence ∧ p.confidence ≤ 1) ∧
    (predict cfg probs (clampTopK cfg (k : Int))).predictions.Pairwise
      (fun a b => b.confidence ≤ a.confidence) := by
  have hclamp : clampTopK cfg (k : Int) = min k probs.length := by
    rw [clampTopK_some hcls]
    omega
  refine ⟨?_, ?_, ?_⟩
  · rw [hclamp, predict_length]
    split <;> omega
  · intro p hp'
    obtain ⟨hlt, hconf⟩ := predict_mem cfg probs _ hp'
    have hmem : probs.getD p.class_id 0 ∈ probs := by
      rw [List.getD_eq_getElem probs 0 hlt]
      exact List.getElem_mem hlt
    rw [hconf]
    exact hp _ hmem
  · exact (predict_pairwise cfg probs _).imp (fun h => h.1)

/-- Witness for predict_topk_shape: three classes with the one-hot
probability vector (0, 1, 0) and requested top_k = 2. -/
theorem predict_topk_shape_witness :
    (predict ⟨"cpu", (224, 224), none, some 3⟩ [(0:ℚ), 1, 0]
        (clampTopK ⟨"cpu", (224, 224), none, some 3⟩ ((2 : Nat) : Int))).predictions.length
        = min 2 [(0:ℚ), 1, 0].length ∧
    (∀ p ∈ (predict ⟨"cpu", (224, 224), none, some 3⟩ [(0:ℚ), 1, 0]
        (clampTopK ⟨"cpu", (224, 224), none, some 3⟩ ((2 : Nat) : Int))).predictions,
      0 ≤ p.confidence ∧ p.confidence ≤ 1) ∧
    (predict ⟨"cpu", (224, 224), none, some 3⟩ [(0:ℚ), 1, 0]
        (clampTopK ⟨"cpu", (224, 224), none, some 3⟩ ((2 : Nat) : Int))).predictions.Pairwise
      (fun a b => b.confidence ≤ a.confidence) :=
  predict_topk_shape ⟨"cpu", (224, 224), none, some 3⟩ [(0:ℚ), 1, 0] 2
    rfl (by decide) (by decide)

/-- Claim C4 counterexample: on the probability vector (1/2, 1/2) with top_k = 2
the engine returns class 1 before class 0 with equal confidences, so a tie
is not broken by the lower class index. The stable ascending argsort keeps
ties in index order, and the final reversal therefore puts the higher index
first. -/
theorem predict_tie_counterexample :
    (predict ⟨"cpu", (224, 224), none, some 2⟩
        [(⟨1, 2, by decide, Nat.coprime_one_left 2⟩ : ℚ),
         (⟨1, 2, by decide, Nat.coprime_one_left 2⟩ : ℚ)] 2).predictions =
      [⟨1, "Class 1", (⟨1, 2, by decide, Nat.coprime_one_left 2⟩ : ℚ)⟩,
       ⟨0, "Class 0", (⟨1, 2, by decide, Nat.coprime_one_left 2⟩ : ℚ)⟩] ∧
    ¬ (predict ⟨"cpu", (224, 224), none, some 2⟩
        [(⟨1, 2, by decide, Nat.coprime_one_left 2⟩ : ℚ),
         (⟨1, 2, by decide, Nat.coprime_one_left 2⟩ : ℚ)] 2).predictions.Pairwise
      (fun a b => a.confidence = b.confidence → a.class_id < b.class_id) := by
  constructor
  · decide
  · decide

/-- Claim C4 amended: in top-k selection, when two classes have equal probability,
the class with the HIGHER class index is ranked before the one with the
lower index (for every probability vector and every top_k). -/
theorem predict_tie_higher_index (cfg : Config) (probs : List ℚ) (top_k : Nat) :
    (predict cfg probs top_k).predictions.Pairwise
      (fun a b => a.confidence = b.confidence → b.class_id < a.class_id) :=
  (predict_pairwise cfg probs top_k).imp (fun h => h.2)

/-- Claim C5: the HTTP surface clamps the requested top_k into the range from 1 to
num_classes before inference: top_k = 0 is clamped to 1 and yields the same
request behaviour as top_k = 1, an arbitrary integer top_k is clamped into
the range, and a top_k at least num_classes yields exactly num_classes
entries. -/
theorem topk_clamping (cfg : Config) (probs : List ℚ) (k k2 : Int)
    (env : DBEnv) (st : DBState) (ml hi : Bool) (fn : String) (fs : Nat)
    (hcls : cfg.num_classes = some probs.length)
    (hn : 1 ≤ probs.length)
    (hk : (probs.length : Int) ≤ k) :
    clampTopK cfg 0 = 1 ∧
    predict_endpoint cfg env st ml hi fn fs 0 probs
      = predict_endpoint cfg env st ml hi fn fs 1 probs ∧
    (1 ≤ clampTopK cfg k2 ∧ clampTopK cfg k2 ≤ probs.length) ∧
    (predict cfg probs (clampTopK cfg k)).predictions.length = probs.length := by
  have h0 := clampTopK_some hcls 0
  have h1 := clampTopK_some hcls 1
  have h2 := clampTopK_some hcls k2
  have hkk := clampTopK_some hcls k
  have h01 : clampTopK cfg 0 = clampTopK cfg 1 := by
    rw [h0, h1]
    omega
  refine ⟨by rw [h0]; omega, ?_, ⟨by rw [h2]; omega, by rw [h2]; omega⟩, ?_⟩
  · unfold predict_endpoint
    rw [h01]
  · have hck : clampTopK cfg k = probs.length := by
      rw [hkk]; omega
    rw [hck, predict_length, if_neg (by omega)]
    omega

/-- Witness for topk_clamping: 50 uniform classes, requested top_k = 100000
(clamped to 50 entries), and the clamping of the arbitrary request -3. -/
theorem topk_clamping_witness :
    clampTopK ⟨"cpu", (224, 224), none, some 50⟩ 0 = 1 ∧
    predict_endpoint ⟨"cpu", (224, 224), none, some 50⟩ ⟨true, false, false⟩
        ⟨false, [], 1, 0⟩ true true "img.png" 123 0 (List.replicate 50 (0:ℚ))
      = predict_endpoint ⟨"cpu", (224, 224), none, some 50⟩ ⟨true, false, false⟩
        ⟨false, [], 1, 0⟩ true true "img.png" 123 1 (List.replicate 50 (0:ℚ)) ∧
    (1 ≤ clampTopK ⟨"cpu", (224, 224), none, some 50⟩ (-3) ∧
      clampTopK ⟨"cpu", (224, 224), none, some 50⟩ (-3)
        ≤ (List.replicate 50 (0:ℚ)).length) ∧
    (predict ⟨"cpu", (224, 224), none, some 50⟩ (List.replicate 50 (0:ℚ))
        (clampTopK ⟨"cpu", (224, 224), none, some 50⟩ 100000)).predictions.length
      = (List.replicate 50 (0:ℚ)).length :=
  topk_clamping ⟨"cpu", (224, 224), none, some 50⟩ (List.replicate 50 (0:ℚ))
    100000 (-3) ⟨true, false, false⟩ ⟨false, [], 1, 0⟩ true true "img.png" 123
    rfl (by decide) (by decide)

/-! ### Facts about the history store and the endpoints -/

theorem ensureConn_fst_of_conn {env : DBEnv} {st : DBState} (h : st.conn = true) :
    Database.ensureConn env st = (st, true) := by
  simp [Database.ensureConn, h]

theorem ensureConn_fst_of_refused {env : DBEnv} {st : DBState}
    (h1 : st.conn = false) (h2 : env.connectOk = false) :
    Database.ensureConn env st = (st, false) := by
  simp [Database.ensureConn, Database.connect, h1, h2]

theorem ensureConn_table (env : DBEnv) (st : DBState) :
    (Database.ensureConn env st).1.table = st.table := by
  by_cases hc : st.conn <;> by_cases ho : env.connectOk <;>
    simp [Database.ensureConn, Database.connect, hc, ho]

theorem save_prediction_error (env : DBEnv) (st : DBState) (a b : String)
    (c : ℚ) (t : List Pred) (s : Option Nat)
    (hfail : env.insertError = true ∨ (st.conn = false ∧ env.connectOk = false)) :
    (Database.save_prediction env st a b c t s).2 = none ∧
    (Database.save_prediction env st a b c t s).1.table = st.table := by
  rcases hfail with hins | ⟨hconn, hok⟩
  · by_cases hc : st.conn <;> by_cases ho : env.connectOk <;>
      simp [Database.save_prediction, Database.ensureConn, Database.connect, hc, ho, hins]
  · simp [Database.save_prediction, Database.ensureConn, Database.connect, hconn, hok]

theorem save_prediction_ok (env : DBEnv) (st : DBState) (a b : String)
    (c : ℚ) (t : List Pred) (s : Option Nat)
    (hconn : st.conn = true) (hok : env.insertError = false) :
    Database.save_prediction env st a b c t s =
      ({ st with table := st.table ++ [⟨st.nextId, st.clock, a, b, c, t⟩],
                 nextId := st.nextId + 1 },
       some ⟨st.nextId, st.clock⟩) := by
  simp [Database.save_prediction, Database.ensureConn, hconn, hok]

theorem predict_endpoint_success (cfg : Config) (env : DBEnv) (st : DBState)
    (fn : String) (fs : Nat) (k : Int) (probs : List ℚ)
    (hname : fn ≠ "") (hsize : fs ≤ MAX_IMAGE_SIZE) (hprobs : probs ≠ []) :
    ∃ top rest, (predict cfg probs (clampTopK cfg k)).predictions = top :: rest ∧
      predict_endpoint cfg env st true true fn fs k probs =
        ((Database.save_prediction env (Database.ensureConn env st).1 fn
            top.label top.confidence (top :: rest) (some fs)).1,
         { status := 200
           success := true
           predictions := top :: rest
           error := none
           history_record :=
             (Database.save_prediction env (Database.ensureConn env st).1 fn
               top.label top.confidence (top :: rest) (some fs)).2 }) := by
  obtain ⟨top, rest, hpr⟩ :
      ∃ top rest, (predict cfg probs (clampTopK cfg k)).predictions = top :: rest := by
    cases hp : (predict cfg probs (clampTopK cfg k)).predictions with
    | nil => exact absurd hp (predict_predictions_ne_nil cfg hprobs _)
    | cons a l => exact ⟨a, l, rfl⟩
  refine ⟨top, rest, hpr, ?_⟩
  simp only [predict_endpoint, Bool.not_true, Bool.false_eq_true, if_false,
    if_neg hname, if_neg (not_lt.mpr hsize), hpr, predict_success_eq,
    predict_error_eq, List.isEmpty_cons, Bool.not_false, Bool.true_and, if_true]

/-- Claim C2: for every prediction request whose inference succeeds, a failure of
the history persistence step (insert error, or no connection and the
connect attempt refused) does not change the HTTP response: status 200,
success true, the full predictions list, no error message; the persistence
failure is never surfaced to the client. -/
theorem persistence_failure_invisible (cfg : Config) (env : DBEnv) (st : DBState)
    (fn : String) (fs : Nat) (k : Int) (probs : List ℚ)
    (hname : fn ≠ "") (hsize : fs ≤ MAX_IMAGE_SIZE) (hprobs : probs ≠ [])
    (hfail : env.insertError = true ∨ (st.conn = false ∧ env.connectOk = false)) :
    (predict_endpoint cfg env st true true fn fs k probs).2.status = 200 ∧
    (predict_endpoint cfg env st true true fn fs k probs).2.success = true ∧
    (predict_endpoint cfg env st true true fn fs k probs).2.predictions
      = (predict cfg probs (clampTopK cfg k)).predictions ∧
    (predict_endpoint cfg env st true true fn fs k probs).2.error = none ∧
    (predict_endpoint cfg env st true true fn fs k probs).2.history_record = none := by
  obtain ⟨top, rest, hpr, hend⟩ :=
    predict_endpoint_success cfg env st fn fs k probs hname hsize hprobs
  have hfail1 : env.insertError = true ∨
      ((Database.ensureConn env st).1.conn = false ∧ env.connectOk = false) := by
    rcases hfail with h | ⟨h1, h2⟩
    · exact Or.inl h
    · rw [ensureConn_fst_of_refused h1 h2]
      exact Or.inr ⟨h1, h2⟩
  have hsave := save_prediction_error env (Database.ensureConn env st).1 fn
    top.label top.confidence (top :: rest) (some fs) hfail1
  rw [hend]
  exact ⟨rfl, rfl, hpr.symm, rfl, hsave.1⟩

/-- Witness for persistence_failure_invisible: a one-class inference with
the insert failing. -/
theorem persistence_failure_invisible_witness :
    (predict_endpoint ⟨"cpu", (224, 224), none, some 1⟩ ⟨true, true, false⟩
        ⟨true, [], 1, 0⟩ true true "leaf.png" 4 5 [(1:ℚ)]).2.status = 200 ∧
    (predict_endpoint ⟨"cpu", (224, 224), none, some 1⟩ ⟨true, true, false⟩
        ⟨true, [], 1, 0⟩ true true "leaf.png" 4 5 [(1:ℚ)]).2.success = true ∧
    (predict_endpoint ⟨"cpu", (224, 224), none, some 1⟩ ⟨true, true, false⟩
        ⟨true, [], 1, 0⟩ true true "leaf.png" 4 5 [(1:ℚ)]).2.predictions
      = (predict ⟨"cpu", (224, 224), none, some 1⟩ [(1:ℚ)]
          (clampTopK ⟨"cpu", (224, 224), none, some 1⟩ 5)).predictions ∧
    (predict_endpoint ⟨"cpu", (224, 224), none, some 1⟩ ⟨true, true, false⟩
        ⟨true, [], 1, 0⟩ true true "leaf.png" 4 5 [(1:ℚ)]).2.error = none ∧
    (predict_endpoint ⟨"cpu", (224, 224), none, some 1⟩ ⟨true, true, false⟩
        ⟨true, [], 1, 0⟩ true true "leaf.png" 4 5 [(1:ℚ)]).2.history_record = none :=
  persistence_failure_invisible ⟨"cpu", (224, 224), none, some 1⟩ ⟨true, true, false⟩
    ⟨true, [], 1, 0⟩ "leaf.png" 4 5 [(1:ℚ)] (by decide) (by decide) (by decide)
    (Or.inl rfl)

/-- Claim C3: for every history record written by a successful prediction request,
the stored confidence equals the confidence of predictions[0] of the
PredictionResult that produced it, and the stored prediction text equals
the label of that element. -/
theorem history_record_matches_top (cfg : Config) (env : DBEnv) (st : DBState)
    (fn : String) (fs : Nat) (k : Int) (probs : List ℚ)
    (hname : fn ≠ "") (hsize : fs ≤ MAX_IMAGE_SIZE) (hprobs : probs ≠ [])
    (hconn : st.conn = true) (hok : env.insertError = false) :
    ∃ top rest, (predict cfg probs (clampTopK cfg k)).predictions = top :: rest ∧
      (predict_endpoint cfg env st true true fn fs k probs).1.table =
        st.table ++ [⟨st.nextId, st.clock, fn, top.label, top.confidence, top :: rest⟩] ∧
      (predict_endpoint cfg env st true true fn fs k probs).2.history_record =
        some ⟨st.nextId, st.clock⟩ := by
  obtain ⟨top, rest, hpr, hend⟩ :=
    predict_endpoint_success cfg env st fn fs k probs hname hsize hprobs
  have he : Database.ensureConn env st = (st, true) := ensureConn_fst_of_conn hconn
  have hsave := save_prediction_ok env st fn top.label top.confidence
    (top :: rest) (some fs) hconn hok
  refine ⟨top, rest, hpr, ?_, ?_⟩
  · rw [hend]
    show (Database.save_prediction env (Database.ensureConn env st).1 fn
      top.label top.confidence (top :: rest) (some fs)).1.table = _
    rw [he, hsave]
  · rw [hend]
    show (Database.save_prediction env (Database.ensureConn env st).1 fn
      top.label top.confidence (top :: rest) (some fs)).2 = _
    rw [he, hsave]

/-- Witness for history_record_matches_top: a two-class inference persisted
into an empty table. -/
theorem history_record_matches_top_witness :
    ∃ top rest,
      (predict ⟨"cpu", (224, 224), none, some 2⟩ [(0:ℚ), 1]
        (clampTopK ⟨"cpu", (224, 224), none, some 2⟩ 1)).predictions = top :: rest ∧
      (predict_endpoint ⟨"cpu", (224, 224), none, some 2⟩ ⟨true, false, false⟩
          ⟨true, [], 1, 0⟩ true true "leaf.png" 4 1 [(0:ℚ), 1]).1.table =
        (⟨true, [], 1, 0⟩ : DBState).table ++
          [⟨(⟨true, [], 1, 0⟩ : DBState).nextId, (⟨true, [], 1, 0⟩ : DBState).clock,
            "leaf.png", top.label, top.confidence, top :: rest⟩] ∧
      (predict_endpoint ⟨"cpu", (224, 224), none, some 2⟩ ⟨true, false, false⟩
          ⟨true, [], 1, 0⟩ true true "leaf.png" 4 1 [(0:ℚ), 1]).2.history_record =
        some ⟨(⟨true, [], 1, 0⟩ : DBState).nextId, (⟨true, [], 1, 0⟩ : DBState).clock⟩ :=
  history_record_matches_top ⟨"cpu", (224, 224), none, some 2⟩ ⟨true, false, false⟩
    ⟨true, [], 1, 0⟩ "leaf.png" 4 1 [(0:ℚ), 1] (by decide) (by decide) (by decide)
    rfl rfl

/-- Claim C6: for every call to save_prediction, if an error occurs during the
insert (or the lazy connect is refused), the transaction is rolled back --
the committed table is unchanged by the failed call -- and the call returns
none instead of raising. -/
theorem save_prediction_rollback (env : DBEnv) (st : DBState)
    (image_name prediction : String) (confidence : ℚ) (top_5 : List Pred)
    (image_size : Option Nat)
    (hfail : env.insertError = true ∨ (st.conn = false ∧ env.connectOk = false)) :
    (Database.save_prediction env st image_name prediction confidence
      top_5 image_size).2 = none ∧
    (Database.save_prediction env st image_name prediction confidence
      top_5 image_size).1.table = st.table :=
  save_prediction_error env st image_name prediction confidence top_5 image_size hfail

/-- Witness for save_prediction_rollback: an insert error against a
connected store holding one row. -/
theorem save_prediction_rollback_witness :
    (Database.save_prediction ⟨true, true, false⟩
      ⟨true, [⟨1, 5, "a.jpg", "cat", 1, []⟩], 2, 6⟩
      "b.jpg" "dog" 0 [] none).2 = none ∧
    (Database.save_prediction ⟨true, true, false⟩
      ⟨true, [⟨1, 5, "a.jpg", "cat", 1, []⟩], 2, 6⟩
      "b.jpg" "dog" 0 [] none).1.table =
      (⟨true, [⟨1, 5, "a.jpg", "cat", 1, []⟩], 2, 6⟩ : DBState).table :=
  save_prediction_rollback ⟨true, true, false⟩
    ⟨true, [⟨1, 5, "a.jpg", "cat", 1, []⟩], 2, 6⟩ "b.jpg" "dog" 0 [] none
    (Or.inl rfl)

/-- Claim C10: the row inserted by save_prediction and the value it returns are
independent of the image_size argument: two calls identical except for
image_size produce identical results and post-states, so no image size is
ever persisted. -/
theorem save_prediction_ignores_image_size (env : DBEnv) (st : DBState)
    (image_name prediction : String) (confidence : ℚ) (top_5 : List Pred)
    (s1 s2 : Option Nat) :
    Database.save_prediction env st image_name prediction confidence top_5 s1 =
      Database.save_prediction env st image_name prediction confidence top_5 s2 := rfl

instance : IsTotal HistoryRow timestampDesc :=
  ⟨fun a b => Nat.le_total b.timestamp a.timestamp⟩

instance : IsTrans HistoryRow timestampDesc :=
  ⟨fun _ _ _ hab hbc => Nat.le_trans hbc hab⟩

theorem get_history_window (env : DBEnv) (st : DBState) (limit offset : Nat)
    (hconn : st.conn = true) (hq : env.queryError = false) :
    (Database.get_history env st limit offset).2 =
      ((orderByTimestampDesc st.table).drop offset).take limit := by
  simp [Database.get_history, Database.ensureConn, hconn, hq]

/-- Claim C7: for every limit and offset, get_history returns a sequence ordered
by timestamp descending (most recent first), containing at most limit
records, obtained by skipping the first offset records of a timestamp-
descending ordering of the whole table. -/
theorem get_history_ordered (env : DBEnv) (st : DBState) (limit offset : Nat)
    (hconn : st.conn = true) (hq : env.queryError = false) :
    (Database.get_history env st limit offset).2.length ≤ limit ∧
    (Database.get_history env st limit offset).2.Pairwise timestampDesc ∧
    ∃ ordering : List HistoryRow, List.Perm ordering st.table ∧
      ordering.Pairwise timestampDesc ∧
      (Database.get_history env st limit offset).2 =
        (ordering.drop offset).take limit := by
  have hw := get_history_window env st limit offset hconn hq
  have hsorted : (orderByTimestampDesc st.table).Pairwise timestampDesc :=
    List.sorted_insertionSort _ _
  refine ⟨?_, ?_, orderByTimestampDesc st.table,
    List.perm_insertionSort _ _, hsorted, hw⟩
  · rw [hw]
    exact List.length_take_le _ _
  · rw [hw]
    exact hsorted.sublist ((List.take_sublist _ _).trans (List.drop_sublist _ _))

/-- Witness for get_history_ordered: two rows with timestamps 5 and 9 read
back with limit 50 and offset 0. -/
theorem get_history_ordered_witness :
    (Database.get_history ⟨true, false, false⟩
      ⟨true, [⟨1, 5, "a.jpg", "cat", 1, []⟩, ⟨2, 9, "b.jpg", "dog", 0, []⟩], 3, 10⟩
      50 0).2.length ≤ 50 ∧
    (Database.get_history ⟨true, false, false⟩
      ⟨true, [⟨1, 5, "a.jpg", "cat", 1, []⟩, ⟨2, 9, "b.jpg", "dog", 0, []⟩], 3, 10⟩
      50 0).2.Pairwise timestampDesc ∧
    ∃ ordering : List HistoryRow,
      List.Perm ordering
        (⟨true, [⟨1, 5, "a.jpg", "cat", 1, []⟩, ⟨2, 9, "b.jpg", "dog", 0, []⟩],
          3, 10⟩ : DBState).table ∧
      ordering.Pairwise timestampDesc ∧
      (Database.get_history ⟨true, false, false⟩
        ⟨true, [⟨1, 5, "a.jpg", "cat", 1, []⟩, ⟨2, 9, "b.jpg", "dog", 0, []⟩], 3, 10⟩
        50 0).2 = (ordering.drop 0).take 50 :=
  get_history_ordered ⟨true, false, false⟩
    ⟨true, [⟨1, 5, "a.jpg", "cat", 1, []⟩, ⟨2, 9, "b.jpg", "dog", 0, []⟩], 3, 10⟩
    50 0 rfl rfl

/-- Claim C8 counterexample: a store error during GET /history (query raises
against a connected store with one row) yields HTTP 200 with an empty body,
not 500: the DB layer catches the error and returns an empty list, so the
500 branch of the handler is not reached. -/
theorem history_route_error_counterexample :
    (get_history_route ⟨true, false, true⟩
      ⟨true, [⟨1, 5, "a.jpg", "cat", 1, []⟩], 2, 6⟩ 50 0).2.status = 200 ∧
    (get_history_route ⟨true, false, true⟩
      ⟨true, [⟨1, 5, "a.jpg", "cat", 1, []⟩], 2, 6⟩ 50 0).2.body = [] ∧
    ¬ (get_history_route ⟨true, false, true⟩
      ⟨true, [⟨1, 5, "a.jpg", "cat", 1, []⟩], 2, 6⟩ 50 0).2.status = 500 := by
  refine ⟨?_, ?_, ?_⟩ <;> decide

/-- Claim C8 amended: GET /history responds with HTTP 200 and an empty list
whenever the history store operation errors; the error is swallowed inside
Database.get_history and never produces a 500. -/
theorem history_route_store_error (env : DBEnv) (st : DBState)
    (limit offset : Nat) (hq : env.queryError = true) :
    (get_history_route env st limit offset).2.status = 200 ∧
    (get_history_route env st limit offset).2.body = [] := by
  by_cases hc : st.conn <;> by_cases ho : env.connectOk <;>
    simp [get_history_route, Database.get_history, Database.ensureConn,
      Database.connect, hq, hc, ho]

/-- Witness for history_route_store_error: a failing query against a
connected store. -/
theorem history_route_store_error_witness :
    (get_history_route ⟨true, false, true⟩
      ⟨true, [⟨1, 5, "a.jpg", "cat", 1, []⟩], 2, 6⟩ 7 1).2.status = 200 ∧
    (get_history_route ⟨true, false, true⟩
      ⟨true, [⟨1, 5, "a.jpg", "cat", 1, []⟩], 2, 6⟩ 7 1).2.body = [] :=
  history_route_store_error ⟨true, false, true⟩
    ⟨true, [⟨1, 5, "a.jpg", "cat", 1, []⟩], 2, 6⟩ 7 1 rfl

/-- Claim C9: when the label file is missing or unreadable, load_labels still
produces a full label set: the synthesized placeholder labels Class i for
i below num_classes, whose length equals the previously inferred
num_classes, defaulting to 1000 when none was inferred. -/
theorem load_labels_fallback (prior : Option Nat) (src : LabelsSource)
    (h : src = LabelsSource.fileMissing ∨ src = LabelsSource.fileUnreadable) :
    (load_labels prior src).1 =
      (List.range (prior.getD 1000)).map (fun i => "Class " ++ toString i) ∧
    (load_labels prior src).2 = prior.getD 1000 ∧
    (load_labels prior src).1.length = (load_labels prior src).2 := by
  rcases h with h | h <;> subst h <;>
    exact ⟨rfl, rfl, by simp [load_labels]⟩

/-- Witness for load_labels_fallback: a missing file with three classes
already inferred. -/
theorem load_labels_fallback_witness :
    (load_labels (some 3) LabelsSource.fileMissing).1 =
      (List.range ((some 3).getD 1000)).map (fun i => "Class " ++ toString i) ∧
    (load_labels (some 3) LabelsSource.fileMissing).2 = (some 3).getD 1000 ∧
    (load_labels (some 3) LabelsSource.fileMissing).1.length =
      (load_labels (some 3) LabelsSource.fileMissing).2 :=
  load_labels_fallback (some 3) LabelsSource.fileMissing (Or.inl rfl)

end ImageClassifier
